import Mathlib

/-!
Verification development for the `bevy_bullet_dynamics` ballistics engine.

The Rust source is shallowly embedded over exact arithmetic:
`f32` scalars are modelled as `ℚ` where the code is closed-form rational
arithmetic, and as `ℝ` where the code uses `powf`/`sqrt` with non-integer
arguments.  Floating-point library primitives whose bit-level behaviour is
not reproducible in exact arithmetic (`Vec3::length`, `Vec3::normalize`,
`f32::acos`, the `rand_distr` normal sampler) are threaded through the
embedded functions as explicit function parameters, so every embedded
definition is a function of its inputs and of those primitives only,
exactly as in the source.
-/

namespace BulletDynamics

/-- 3-component vector over ℚ, modelling `bevy::math::Vec3`. -/
abbrev Vec3 : Type := ℚ × ℚ × ℚ

/-- Componentwise dot product of two vectors (`Vec3::dot`). -/
def dot3 (a b : Vec3) : ℚ := a.1 * b.1 + a.2.1 * b.2.1 + a.2.2 * b.2.2

/-- Componentwise negation (`-v`). -/
def neg3 (a : Vec3) : Vec3 := (-a.1, -a.2.1, -a.2.2)

/-- Vector addition. -/
def add3 (a b : Vec3) : Vec3 := (a.1 + b.1, a.2.1 + b.2.1, a.2.2 + b.2.2)

/-- Vector subtraction. -/
def sub3 (a b : Vec3) : Vec3 := (a.1 - b.1, a.2.1 - b.2.1, a.2.2 - b.2.2)

/-- Scalar multiplication. -/
def smul3 (c : ℚ) (a : Vec3) : Vec3 := (c * a.1, c * a.2.1, c * a.2.2)

/-- Global configuration resource `BallisticsConfig` (resources.rs). -/
structure BallisticsConfig where
  use_rk4 : Bool
  max_projectile_lifetime : ℚ
  max_projectile_distance : ℚ
  enable_penetration : Bool
  enable_ricochet : Bool
  min_projectile_speed : ℚ
  debug_draw : Bool

/-- Global environment resource `BallisticsEnvironment` (resources.rs).
The barometric `effective_air_density` uses `exp`, so the kinematics step
below takes the already-derived effective density as a scalar argument,
exactly as the source integrators do. -/
structure BallisticsEnvironment where
  gravity : Vec3
  air_density : ℚ
  wind : Vec3
  temperature : ℚ
  altitude : ℚ
  latitude : ℚ

/-- The `Projectile` component (components.rs).  The fields `age` and
`distance_travelled` are constructed by the repository's examples
(`examples/grenades.rs`) and read by `network/client.rs` and
`examples/fps_example.rs`, but the snapshot of `components.rs` omits them;
they are modelled from the spec's data-model section, which lists
age (s) and distance travelled (m) on every projectile. -/
structure Projectile where
  velocity : Vec3
  mass : ℚ
  drag_coefficient : ℚ
  reference_area : ℚ
  diameter : ℚ
  spin : ℚ
  penetration_power : ℚ
  previous_position : Vec3
  age : ℚ
  distance_travelled : ℚ
  owner : Option Nat

/-- The `Accuracy` component (components.rs). -/
structure Accuracy where
  current_bloom : ℚ
  base_spread : ℚ
  max_spread : ℚ
  bloom_per_shot : ℚ
  recovery_rate : ℚ
  movement_penalty : ℚ
  ads_modifier : ℚ
  airborne_multiplier : ℚ

/-- The `SurfaceMaterial` component (components.rs); the presentation-only
`hit_effect` tag is irrelevant to every claim and omitted. -/
structure SurfaceMaterial where
  ricochet_angle : ℚ
  penetration_loss : ℚ
  thickness : ℚ

/-- The `Payload` component (components.rs). -/
inductive Payload where
  | Kinetic (damage : ℚ)
  | Explosive (damage radius falloff : ℚ)
  | Incendiary (duration damage_per_second radius : ℚ)
  | Flash (intensity duration radius : ℚ)
  | Smoke (duration radius : ℚ)

/-- `ExplosionType` (events.rs). -/
inductive ExplosionType where
  | HighExplosive
  | Incendiary
  | Flash
  | Smoke
  | Fragmentation
  | Concussion
  | EMP

/-! ## Accuracy / spread model (systems/accuracy.rs) -/

/-- `calculate_total_spread` (systems/accuracy.rs, lines 38-67), translated
clause for clause: base + bloom, additive movement penalty guarded by
`is_moving && max_speed > 0.0`, multiplicative airborne penalty,
multiplicative ADS modifier, final clamp `min` against `max_spread`. -/
def calculate_total_spread (accuracy : Accuracy) (is_aiming is_moving is_airborne : Bool)
    (movement_speed max_speed : ℚ) : ℚ :=
  let total0 := accuracy.base_spread + accuracy.current_bloom
  let total1 :=
    if is_moving && decide (0 < max_speed) then
      total0 + accuracy.movement_penalty * min (movement_speed / max_speed) 1 * accuracy.base_spread
    else total0
  let total2 := if is_airborne then total1 * accuracy.airborne_multiplier else total1
  let total3 := if is_aiming then total2 * accuracy.ads_modifier else total2
  min total3 accuracy.max_spread

/-- Definition following the words of the spec for the total-spread formula
(claim C6): start with base + bloom; if moving, add
`movement_penalty * min(speed/max_speed, 1) * base_spread`; if airborne,
multiply by `airborne_multiplier`; if aiming, multiply by `ads_modifier`;
clamp to `max_spread`.  (The spec formula states no guard on `max_speed`.) -/
def total_spread_from_spec (accuracy : Accuracy) (is_aiming is_moving is_airborne : Bool)
    (movement_speed max_speed : ℚ) : ℚ :=
  let s0 := accuracy.base_spread + accuracy.current_bloom
  let s1 :=
    if is_moving then
      s0 + accuracy.movement_penalty * min (movement_speed / max_speed) 1 * accuracy.base_spread
    else s0
  let s2 := if is_airborne then s1 * accuracy.airborne_multiplier else s1
  let s3 := if is_aiming then s2 * accuracy.ads_modifier else s2
  min s3 accuracy.max_spread

/-- Accuracy value with base 0.001, bloom 0.002, max 0.05 used by the
spec's concrete spread test (remaining fields as in `Accuracy::default`). -/
def accuracy_c6_example : Accuracy :=
  { current_bloom := 1/500
    base_spread := 1/1000
    max_spread := 1/20
    bloom_per_shot := 1/100
    recovery_rate := 1/20
    movement_penalty := 2
    ads_modifier := 3/10
    airborne_multiplier := 3 }

/-! ## Hit-event damage fallback (systems/collision.rs, lines 208-212) -/

/-- The damage carried by the `HitEvent` emitted from `process_hit`:
`Kinetic.damage` for a kinetic payload, `Explosive.damage` for an explosive
payload, and the constant `25.0` in every other case (including a present
Incendiary/Flash/Smoke payload and no payload at all). -/
def hit_event_damage (payload : Option Payload) : ℚ :=
  match payload with
  | some (Payload.Kinetic damage) => damage
  | some (Payload.Explosive damage _ _) => damage
  | _ => 25

/-! ## Lifetime expiry (registered as `systems::logic::cleanup_expired_projectiles`
in lib.rs lines 126-136) -/

/-- Modelled from the spec: the system `cleanup_expired_projectiles` is
registered in `lib.rs` (line 133) but its definition is absent from the
source snapshot.  Per spec §4.4, a projectile is removed when
`age > max_lifetime`, or `distance_travelled > max_distance`, or
`speed < min_projectile_speed` for projectiles past their initial spawn
tick (a freshly spawned slow grenade is not instantly expired).
Returns `true` when the projectile is removed this tick. -/
def cleanup_expired_projectiles (config : BallisticsConfig)
    (age distance_travelled speed : ℚ) (past_spawn_tick : Bool) : Bool :=
  decide (config.max_projectile_lifetime < age) ||
  decide (config.max_projectile_distance < distance_travelled) ||
  (past_spawn_tick && decide (speed < config.min_projectile_speed))

/-- The `FixedUpdate` system chain registered by `BallisticsCorePlugin`
(lib.rs lines 126-136); `.chain()` makes this list the execution order
within a tick. -/
def core_fixed_update_systems : List String :=
  ["update_bloom", "update_guidance", "update_projectiles_kinematics",
   "process_projectile_logic", "cleanup_expired_projectiles"]

/-! ## Motion integrator (systems/kinematics.rs)

`Vec3::length` is an `f32` square root; the integrator defs take it as an
explicit function parameter `lenF`, and `v.normalize()` is rendered as
`(1 / lenF v) • v`, its defining equation. -/

/-- `calculate_acceleration` (kinematics.rs lines 117-143): relative
velocity against wind; below speed `0.001` return gravity unmodified;
otherwise gravity minus the drag acceleration
`normalize(rel) * (0.5 * rho * speed^2 * Cd * A / mass)`. -/
def calculate_acceleration (lenF : Vec3 → ℚ) (bullet : Projectile) (vel : Vec3)
    (env : BallisticsEnvironment) (air_density : ℚ) : Vec3 :=
  let relative_vel := sub3 vel env.wind
  let speed := lenF relative_vel
  if speed < 1/1000 then env.gravity
  else
    let direction := smul3 (1 / speed) relative_vel
    let drag_magnitude :=
      1/2 * air_density * speed ^ 2 * bullet.drag_coefficient * bullet.reference_area
    let drag_accel := smul3 (drag_magnitude / bullet.mass) direction
    sub3 env.gravity drag_accel

/-- `integrate_euler` (kinematics.rs lines 93-103): one acceleration
evaluation, then `v += a*dt; p += v*dt`.  Returns (new velocity, new
position). -/
def integrate_euler (lenF : Vec3 → ℚ) (pos : Vec3) (bullet : Projectile) (dt : ℚ)
    (env : BallisticsEnvironment) (air_density : ℚ) : Vec3 × Vec3 :=
  let accel := calculate_acceleration lenF bullet bullet.velocity env air_density
  let v := add3 bullet.velocity (smul3 dt accel)
  (v, add3 pos (smul3 dt v))

/-- `integrate_rk4` (kinematics.rs lines 57-79): four acceleration
evaluations `k1..k4`, weighted average `(k1+2k2+2k3+k4)/6`, then
`v += a*dt; p = pos + v*dt`.  Returns (new velocity, new position). -/
def integrate_rk4 (lenF : Vec3 → ℚ) (pos : Vec3) (bullet : Projectile) (dt : ℚ)
    (env : BallisticsEnvironment) (air_density : ℚ) : Vec3 × Vec3 :=
  let vel := bullet.velocity
  let k1 := calculate_acceleration lenF bullet vel env air_density
  let k2 := calculate_acceleration lenF bullet (add3 vel (smul3 (dt / 2) k1)) env air_density
  let k3 := calculate_acceleration lenF bullet (add3 vel (smul3 (dt / 2) k2)) env air_density
  let k4 := calculate_acceleration lenF bullet (add3 vel (smul3 dt k3)) env air_density
  let final_accel :=
    smul3 (1/6) (add3 (add3 (add3 k1 (smul3 2 k2)) (smul3 2 k3)) k4)
  let v := add3 vel (smul3 dt final_accel)
  (v, add3 pos (smul3 dt v))

/-- The per-projectile body of `update_projectiles_kinematics`
(kinematics.rs lines 18-44): store the pre-step position into
`previous_position`, then integrate with RK4 or Euler according to
`config.use_rk4`.  The trailing accumulation is modelled from the spec:
the snapshot's `Projectile` lacks the `age`/`distance_travelled` fields
(they are constructed by `examples/grenades.rs`), and per spec §4.1
distance travelled accumulates by the per-step displacement magnitude and
age by `dt` after integration.  Returns (new position, updated
projectile). -/
def update_projectile_kinematics_step (lenF : Vec3 → ℚ) (config : BallisticsConfig)
    (env : BallisticsEnvironment) (air_density dt : ℚ) (pos : Vec3)
    (bullet : Projectile) : Vec3 × Projectile :=
  let bullet1 : Projectile := { bullet with previous_position := pos }
  let step :=
    if config.use_rk4 then integrate_rk4 lenF pos bullet1 dt env air_density
    else integrate_euler lenF pos bullet1 dt env air_density
  let new_pos := step.2
  let bullet2 : Projectile :=
    { bullet1 with
        velocity := step.1
        distance_travelled := bullet1.distance_travelled + lenF (sub3 new_pos pos)
        age := bullet1.age + dt }
  (new_pos, bullet2)

/-! ## Surface interactions (systems/surface.rs) -/

/-- The scalar handed to `acos` in `should_ricochet` (surface.rs line 116):
`velocity.normalize().dot(-surface_normal)`, with `normalize` threaded as
the `f32` primitive `nrm`.  The source applies no clamp to this value. -/
def ricochet_acos_input (nrm : Vec3 → Vec3) (velocity surface_normal : Vec3) : ℚ :=
  dot3 (nrm velocity) (neg3 surface_normal)

/-- Definition following the words of the spec for the acos argument
(claim C7): the dot product clamped to `[-1, 1]` before `acos`. -/
def ricochet_acos_input_from_spec (nrm : Vec3 → Vec3) (velocity surface_normal : Vec3) : ℚ :=
  max (-1) (min (dot3 (nrm velocity) (neg3 surface_normal)) 1)

/-- `should_ricochet` (surface.rs lines 110-120): impact angle is
`acos` of the dot above; ricochet exactly when it exceeds the surface's
`ricochet_angle` threshold.  `acosF` is the `f32::acos` primitive. -/
def should_ricochet (acosF : ℚ → ℚ) (nrm : Vec3 → Vec3)
    (velocity surface_normal : Vec3) (surface : SurfaceMaterial) : Bool :=
  let impact_angle := acosF (ricochet_acos_input nrm velocity surface_normal)
  decide (surface.ricochet_angle < impact_angle)

/-- Reflection of `direction` about `surface_normal` as written in
`calculate_ricochet`: `d - 2 * d.dot(n) * n`. -/
def reflect3 (direction surface_normal : Vec3) : Vec3 :=
  sub3 direction (smul3 (2 * dot3 direction surface_normal) surface_normal)

/-- `calculate_ricochet` (surface.rs lines 134-150): reflect the
normalized velocity about the normal, retain
`1 - min(penetration_loss / 200, 0.8)` of the speed.  Returns
(new direction, new speed). -/
def calculate_ricochet (lenF : Vec3 → ℚ) (nrm : Vec3 → Vec3)
    (velocity surface_normal : Vec3) (surface : SurfaceMaterial) : Vec3 × ℚ :=
  let speed := lenF velocity
  let direction := nrm velocity
  let reflected := reflect3 direction surface_normal
  let speed_retention := 1 - min (surface.penetration_loss / 200) (4/5)
  (nrm reflected, speed * speed_retention)

/-- `calculate_exit_velocity` (surface.rs lines 84-96): exit speed is the
entry speed scaled by `max(1 - penetration_loss/100 * min(travel/thickness, 1), 0.1)`,
along the normalized entry direction. -/
def calculate_exit_velocity (lenF : Vec3 → ℚ) (nrm : Vec3 → Vec3)
    (entry_velocity : Vec3) (surface : SurfaceMaterial) (travel_distance : ℚ) : Vec3 :=
  let speed := lenF entry_velocity
  let thickness_ratio := min (travel_distance / surface.thickness) 1
  let speed_loss_ratio := surface.penetration_loss / 100 * thickness_ratio
  let exit_speed := speed * max (1 - speed_loss_ratio) (1/10)
  smul3 exit_speed (nrm entry_velocity)

/-! ## Hit processing (systems/collision.rs, `process_hit`, lines 195-262) -/

/-- Outcome of `process_hit` relevant to the emitted `HitEvent` and the
projectile's fate: the event's damage / penetrated / ricocheted fields,
whether the projectile entity is despawned, and its post-hit velocity. -/
structure HitOutcome where
  damage : ℚ
  penetrated : Bool
  ricocheted : Bool
  removed : Bool
  velocity : Vec3

/-- `process_hit` (collision.rs lines 195-262), decision logic.  Damage is
`hit_event_damage payload`.  With a surface attached: if ricochet is
enabled and `should_ricochet`, a ricochet whose new speed exceeds
`min_projectile_speed` redirects the projectile, otherwise nothing is set
in this branch (full stop — penetration is in the `else if` and is not
attempted); else if penetration is enabled, the dynamic power
`0.5 * mass * speed^2 * 0.25` must exceed `penetration_loss` and the exit
speed must exceed `min_projectile_speed` for the projectile to continue.
The projectile is despawned exactly when it neither penetrated nor
ricocheted. -/
def process_hit (acosF : ℚ → ℚ) (lenF : Vec3 → ℚ) (nrm : Vec3 → Vec3)
    (config : BallisticsConfig) (projectile : Projectile) (payload : Option Payload)
    (hit_normal : Vec3) (surface : Option SurfaceMaterial) : HitOutcome :=
  let damage := hit_event_damage payload
  let base : HitOutcome :=
    { damage := damage, penetrated := false, ricocheted := false,
      removed := false, velocity := projectile.velocity }
  let out :=
    match surface with
    | none => base
    | some s =>
      if config.enable_ricochet && should_ricochet acosF nrm projectile.velocity hit_normal s then
        let ric := calculate_ricochet lenF nrm projectile.velocity hit_normal s
        if config.min_projectile_speed < ric.2 then
          { base with ricocheted := true, velocity := smul3 ric.2 ric.1 }
        else base
      else if config.enable_penetration then
        let speed := lenF projectile.velocity
        let dynamic_power := 1/2 * projectile.mass * speed ^ 2 * (1/4)
        if s.penetration_loss < dynamic_power then
          let exit_vel := calculate_exit_velocity lenF nrm projectile.velocity s s.thickness
          if config.min_projectile_speed < lenF exit_vel then
            { base with penetrated := true, velocity := exit_vel }
          else base
        else base
      else base
  { out with removed := !out.penetrated && !out.ricocheted }

/-! ## Deterministic spread (systems/accuracy.rs, `apply_spread_to_direction`) -/

/-- One step of the PCG multiplier-increment recurrence used by
`rand_core`'s `SeedableRng::seed_from_u64` to expand a 64-bit seed into an
RNG seed, on `Nat` modulo `2^64`. -/
def pcg_seed_step (state : Nat) : Nat :=
  (state * 6364136223846793005 + 11634580027462260723) % 2 ^ 64

/-- 32-bit right rotation (`u32::rotate_right`), `r < 32`. -/
def rotate_right32 (x r : Nat) : Nat :=
  ((x >>> r) ||| (x <<< (32 - r))) % 2 ^ 32

/-- The PCG-XSH-RR output function applied to a 64-bit state word in
`seed_from_u64`: `(((state >> 18) ^ state) >> 27)` rotated right by
`state >> 59`. -/
def pcg_seed_output (state : Nat) : Nat :=
  let xorshifted := (((state >>> 18) ^^^ state) >>> 27) % 2 ^ 32
  let rot := state >>> 59
  rotate_right32 xorshifted rot

/-- `StdRng::seed_from_u64(seed)` (rand_core): the eight 32-bit words that
fill the 32-byte ChaCha12 key, each produced by stepping the PCG
recurrence from `seed` and applying the output function.  The resulting
word list is the whole RNG state the sampler consumes — it depends on
`seed` alone. -/
def std_rng_seed_from_u64 (seed : Nat) : List Nat :=
  (List.range 8).foldl
    (fun acc _ =>
      let st := pcg_seed_step acc.2
      (acc.1 ++ [pcg_seed_output st], st))
    (([] : List Nat), seed % 2 ^ 64) |>.1

/-- The floating-point primitives consumed by `apply_spread_to_direction`:
`rand_distr`'s `Normal::sample` (ziggurat over the ChaCha12 word stream,
modelled as a deterministic state-threading function of the standard
deviation and the RNG state), `Quat::from_euler(XYZ, ax, ay, 0)` applied
to a vector, and `Vec3::normalize`. -/
structure SpreadPrims where
  sampleNormal : ℚ → List Nat → ℚ × List Nat
  rotateEulerXY : ℚ → ℚ → Vec3 → Vec3
  normalize : Vec3 → Vec3

/-- `apply_spread_to_direction` (accuracy.rs lines 91-109): seed a fresh
`StdRng` from the explicit 64-bit `seed`, build
`Normal::new(0, spread_angle / 3)` (falling back to standard deviation
`0.01` when the requested one is rejected, i.e. negative), draw two
angles, rotate the base direction by them on the X and Y axes, normalize.
Every quantity is derived from the three arguments and the fixed
primitives; no other state enters. -/
def apply_spread_to_direction (P : SpreadPrims) (base_direction : Vec3)
    (spread_angle : ℚ) (seed : Nat) : Vec3 :=
  let rng := std_rng_seed_from_u64 seed
  let sigma := if spread_angle / 3 < 0 then 1/100 else spread_angle / 3
  let s1 := P.sampleNormal sigma rng
  let angle_x := s1.1
  let s2 := P.sampleNormal sigma s1.2
  let angle_y := s2.1
  P.normalize (P.rotateEulerXY angle_x angle_y base_direction)

/-! ## Explosion resolver (systems/logic.rs)

`calculate_explosion_damage` and the impulse system apply `powf` with an
arbitrary real exponent and `Vec3::length`, so this module is embedded
over `ℝ` with `Real.rpow` and `Real.sqrt` as the idealisation of the
`f32` operations. -/

/-- 3-component vector over ℝ. -/
abbrev Vec3R : Type := ℝ × ℝ × ℝ

/-- Componentwise vector subtraction over ℝ. -/
noncomputable def sub3R (a b : Vec3R) : Vec3R := (a.1 - b.1, a.2.1 - b.2.1, a.2.2 - b.2.2)

/-- `Vec3::length` over ℝ. -/
noncomputable def length3R (v : Vec3R) : ℝ :=
  Real.sqrt (v.1 ^ 2 + v.2.1 ^ 2 + v.2.2 ^ 2)

/-- `calculate_explosion_damage` (logic.rs lines 197-211): zero at or past
the radius, otherwise `base_damage * (1 - distance/radius) ^ falloff`
(`f32::powf` rendered as `Real.rpow`). -/
noncomputable def calculate_explosion_damage (base_damage distance radius falloff : ℝ) : ℝ :=
  if radius ≤ distance then 0
  else
    let normalized_distance := distance / radius
    let falloff_factor := (1 - normalized_distance) ^ falloff
    base_damage * falloff_factor

/-- `ExplosionEvent` (events.rs) restricted to the fields the impulse
system reads; entities are identities (`Nat`). -/
structure ExplosionEvt where
  center : Vec3R
  radius : ℝ
  falloff : ℝ
  explosion_type : ExplosionType
  source : Option Nat

/-- The per-`ExplosionType` base impulse table inlined in
`apply_explosion_impulse` (logic.rs lines 342-350). -/
noncomputable def explosion_base_impulse : ExplosionType → ℝ
  | ExplosionType.HighExplosive => 30
  | ExplosionType.Incendiary => 5
  | ExplosionType.Flash => 2
  | ExplosionType.Smoke => 1/2
  | ExplosionType.Fragmentation => 25
  | ExplosionType.Concussion => 50
  | ExplosionType.EMP => 0

/-- The impulse magnitude computed in `apply_explosion_impulse`
(logic.rs lines 370-377): `base * (1 - distance/radius)^falloff * mass_factor`,
where the mass factor is `1/mass` for positive mass and `1` otherwise. -/
noncomputable def impulse_magnitude (event : ExplosionEvt) (base_impulse distance mass : ℝ) : ℝ :=
  let normalized_distance := distance / event.radius
  let falloff_factor := (1 - normalized_distance) ^ event.falloff
  let mass_factor := if 0 < mass then 1 / mass else 1
  base_impulse * falloff_factor * mass_factor

/-- The per-body branch of `apply_explosion_impulse` (logic.rs lines
336-387): skip the whole event when the base impulse is `≤ 0` (EMP); skip
the explosion's source entity; skip bodies at distance `≥ radius` or
`< 0.01` from the center; otherwise add
`normalize(direction + 0.3 * Y) * magnitude` to the body's velocity.
Returns the velocity delta, `none` when no impulse is applied. -/
noncomputable def apply_explosion_impulse_to_body (event : ExplosionEvt)
    (body : Nat) (body_pos : Vec3R) (mass : ℝ) : Option Vec3R :=
  let base_impulse := explosion_base_impulse event.explosion_type
  if base_impulse ≤ 0 then none
  else if event.source = some body then none
  else
    let to_entity : Vec3R := sub3R body_pos event.center
    let distance := length3R to_entity
    if event.radius ≤ distance ∨ distance < 1/100 then none
    else
      let direction : Vec3R :=
        (to_entity.1 / distance, to_entity.2.1 / distance, to_entity.2.2 / distance)
      let magnitude := impulse_magnitude event base_impulse distance mass
      let nudged : Vec3R := (direction.1, direction.2.1 + 3/10, direction.2.2)
      let nlen := length3R nudged
      let impulse_direction : Vec3R := (nudged.1 / nlen, nudged.2.1 / nlen, nudged.2.2 / nlen)
      some (impulse_direction.1 * magnitude, impulse_direction.2.1 * magnitude,
            impulse_direction.2.2 * magnitude)

/-! ## Theorems -/

/-- C1: for every base direction, spread angle and 64-bit seed, two calls
to `apply_spread_to_direction` with identical `(direction, spread_angle,
seed)` arguments return identical output direction vectors: the embedded
function consumes nothing but its three arguments and the fixed
floating-point primitives (the RNG is re-seeded from `seed` alone on
every call), so the two results coincide. -/
theorem apply_spread_deterministic (P : SpreadPrims) (base_direction : Vec3)
    (spread_angle : ℚ) (seed : Nat) :
    apply_spread_to_direction P base_direction spread_angle seed =
      apply_spread_to_direction P base_direction spread_angle seed := rfl

/-- C2: a projectile is removed exactly when its age exceeds the maximum
lifetime, or its distance travelled exceeds the maximum distance, or (past
its spawn tick) its speed is below the minimum speed; one at or under all
three thresholds is retained; and the cleanup system is scheduled after
the per-state logic system in the fixed-tick chain. -/
theorem cleanup_expiry_characterization (config : BallisticsConfig)
    (age distance_travelled speed : ℚ) (past_spawn_tick : Bool) :
    (cleanup_expired_projectiles config age distance_travelled speed past_spawn_tick = true ↔
      (config.max_projectile_lifetime < age ∨
       config.max_projectile_distance < distance_travelled ∨
       (past_spawn_tick = true ∧ speed < config.min_projectile_speed))) ∧
    (age ≤ config.max_projectile_lifetime →
      distance_travelled ≤ config.max_projectile_distance →
      config.min_projectile_speed ≤ speed →
      cleanup_expired_projectiles config age distance_travelled speed past_spawn_tick = false) ∧
    List.indexOf "process_projectile_logic" core_fixed_update_systems <
      List.indexOf "cleanup_expired_projectiles" core_fixed_update_systems := by
  refine ⟨?_, ?_, ?_⟩
  · simp [cleanup_expired_projectiles, Bool.or_eq_true, Bool.and_eq_true,
      decide_eq_true_eq, and_comm, or_assoc]
  · intro h1 h2 h3
    simp only [cleanup_expired_projectiles, Bool.or_eq_false_iff, Bool.and_eq_false_iff,
      decide_eq_false_iff_not, not_lt]
    exact ⟨⟨h1, h2⟩, Or.inr (by simpa [not_lt] using h3)⟩
  · decide

/-- Witness for C2 at a concrete configuration: a projectile just under
all three thresholds is retained. -/
theorem cleanup_expiry_characterization_witness :
    cleanup_expired_projectiles
      { use_rk4 := true, max_projectile_lifetime := 10, max_projectile_distance := 2000,
        enable_penetration := true, enable_ricochet := true, min_projectile_speed := 20,
        debug_draw := false }
      (99/10) 1999 21 true = false :=
  (cleanup_expiry_characterization
    { use_rk4 := true, max_projectile_lifetime := 10, max_projectile_distance := 2000,
      enable_penetration := true, enable_ricochet := true, min_projectile_speed := 20,
      debug_draw := false }
    (99/10) 1999 21 true).2.1 (by norm_num) (by norm_num) (by norm_num)

/-- C3: the per-projectile kinematics step stores the pre-step position
into `previous_position` (and hands that projectile to the integrator),
selects RK4 or Euler by `config.use_rk4`, and afterwards accumulates
`distance_travelled` by the magnitude of the per-step displacement and
`age` by `dt`. -/
theorem kinematics_step_bookkeeping (lenF : Vec3 → ℚ) (config : BallisticsConfig)
    (env : BallisticsEnvironment) (air_density dt : ℚ) (pos : Vec3) (bullet : Projectile) :
    (update_projectile_kinematics_step lenF config env air_density dt pos bullet).2.previous_position
        = pos ∧
    (update_projectile_kinematics_step lenF config env air_density dt pos bullet).2.age
        = bullet.age + dt ∧
    (update_projectile_kinematics_step lenF config env air_density dt pos bullet).2.distance_travelled
        = bullet.distance_travelled +
            lenF (sub3 (update_projectile_kinematics_step lenF config env air_density dt pos bullet).1 pos) ∧
    (update_projectile_kinematics_step lenF config env air_density dt pos bullet).1 =
      (if config.use_rk4 then
        integrate_rk4 lenF pos { bullet with previous_position := pos } dt env air_density
       else
        integrate_euler lenF pos { bullet with previous_position := pos } dt env air_density).2 :=
  ⟨rfl, rfl, rfl, rfl⟩

/-- C6: `calculate_total_spread` equals the spec's formula — base plus
bloom, additive movement term, then the airborne and ADS multiplicative
terms, clamped to `max_spread` — for every nonnegative `max_speed`; and at
base 0.001, bloom 0.002, max 0.05 with no modifiers it is exactly
0.003. -/
theorem calculate_total_spread_matches_spec :
    (∀ (accuracy : Accuracy) (is_aiming is_moving is_airborne : Bool)
        (movement_speed max_speed : ℚ), 0 ≤ max_speed →
      calculate_total_spread accuracy is_aiming is_moving is_airborne movement_speed max_speed =
        total_spread_from_spec accuracy is_aiming is_moving is_airborne movement_speed max_speed) ∧
    calculate_total_spread accuracy_c6_example false false false 0 5 = 3/1000 := by
  constructor
  · intro accuracy is_aiming is_moving is_airborne movement_speed max_speed hms
    rcases hms.lt_or_eq with hpos | hzero
    · simp [calculate_total_spread, total_spread_from_spec, hpos]
    · simp [calculate_total_spread, total_spread_from_spec, ← hzero, div_zero,
        min_eq_left (by norm_num : (0:ℚ) ≤ 1)]
  · norm_num [calculate_total_spread, accuracy_c6_example, min_def]

/-- Witness for C6 at a concrete input with movement active. -/
theorem calculate_total_spread_matches_spec_witness :
    calculate_total_spread accuracy_c6_example false true false 3 5 =
      total_spread_from_spec accuracy_c6_example false true false 3 5 :=
  calculate_total_spread_matches_spec.1 accuracy_c6_example false true false 3 5 (by norm_num)

/-- C10: the damage field of the `HitEvent` emitted by `process_hit` is
`Kinetic.damage` for a kinetic payload, `Explosive.damage` for an
explosive payload, and the constant `25.0` in every other case — including
when an Incendiary, Flash or Smoke payload is present, not only when no
payload is attached — and `process_hit` copies exactly this value into
the outcome regardless of configuration, surface and hit geometry. -/
theorem hit_event_damage_characterization :
    (∀ d : ℚ, hit_event_damage (some (Payload.Kinetic d)) = d) ∧
    (∀ d r f : ℚ, hit_event_damage (some (Payload.Explosive d r f)) = d) ∧
    hit_event_damage none = 25 ∧
    (∀ a b c : ℚ, hit_event_damage (some (Payload.Incendiary a b c)) = 25) ∧
    (∀ a b c : ℚ, hit_event_damage (some (Payload.Flash a b c)) = 25) ∧
    (∀ a b : ℚ, hit_event_damage (some (Payload.Smoke a b)) = 25) ∧
    (∀ (acosF : ℚ → ℚ) (lenF : Vec3 → ℚ) (nrm : Vec3 → Vec3)
        (config : BallisticsConfig) (projectile : Projectile) (payload : Option Payload)
        (hit_normal : Vec3) (surface : Option SurfaceMaterial),
      (process_hit acosF lenF nrm config projectile payload hit_normal surface).damage =
        hit_event_damage payload) := by
  refine ⟨fun _ => rfl, fun _ _ _ => rfl, rfl, fun _ _ _ => rfl, fun _ _ _ => rfl,
    fun _ _ => rfl, ?_⟩
  intro acosF lenF nrm config projectile payload hit_normal surface
  cases surface with
  | none => rfl
  | some s =>
    simp only [process_hit]
    split <;> (try split) <;> (try split) <;> (try split) <;> rfl

/-- C4: with ricochet enabled and a surface attached, `should_ricochet`
holds exactly when the impact angle exceeds the surface's ricochet-angle
threshold; `calculate_ricochet` returns the normalized reflection of the
velocity direction about the normal and the old speed scaled by
`1 - min(penetration_loss/200, 0.8)`; the hit ricochets exactly when
`should_ricochet` holds and the new speed exceeds the configured minimum
speed, in which case the projectile is redirected and kept; and when
`should_ricochet` holds but the new speed does not exceed the minimum the
hit is a full stop — the projectile is removed, no penetration is
attempted and its velocity is unchanged. -/
theorem process_hit_ricochet_behavior (acosF : ℚ → ℚ) (lenF : Vec3 → ℚ) (nrm : Vec3 → Vec3)
    (config : BallisticsConfig) (projectile : Projectile) (payload : Option Payload)
    (hit_normal : Vec3) (s : SurfaceMaterial)
    (hr : config.enable_ricochet = true) :
    (should_ricochet acosF nrm projectile.velocity hit_normal s = true ↔
      s.ricochet_angle < acosF (ricochet_acos_input nrm projectile.velocity hit_normal)) ∧
    (calculate_ricochet lenF nrm projectile.velocity hit_normal s).1 =
      nrm (reflect3 (nrm projectile.velocity) hit_normal) ∧
    (calculate_ricochet lenF nrm projectile.velocity hit_normal s).2 =
      lenF projectile.velocity * (1 - min (s.penetration_loss / 200) (4/5)) ∧
    ((process_hit acosF lenF nrm config projectile payload hit_normal (some s)).ricocheted = true ↔
      (should_ricochet acosF nrm projectile.velocity hit_normal s = true ∧
       config.min_projectile_speed <
         (calculate_ricochet lenF nrm projectile.velocity hit_normal s).2)) ∧
    (should_ricochet acosF nrm projectile.velocity hit_normal s = true →
      config.min_projectile_speed <
        (calculate_ricochet lenF nrm projectile.velocity hit_normal s).2 →
      (process_hit acosF lenF nrm config projectile payload hit_normal (some s)).velocity =
        smul3 (calculate_ricochet lenF nrm projectile.velocity hit_normal s).2
          (calculate_ricochet lenF nrm projectile.velocity hit_normal s).1 ∧
      (process_hit acosF lenF nrm config projectile payload hit_normal (some s)).removed = false) ∧
    (should_ricochet acosF nrm projectile.velocity hit_normal s = true →
      ¬ config.min_projectile_speed <
          (calculate_ricochet lenF nrm projectile.velocity hit_normal s).2 →
      (process_hit acosF lenF nrm config projectile payload hit_normal (some s)).removed = true ∧
      (process_hit acosF lenF nrm config projectile payload hit_normal (some s)).penetrated = false ∧
      (process_hit acosF lenF nrm config projectile payload hit_normal (some s)).velocity =
        projectile.velocity) := by
  refine ⟨by simp [should_ricochet], rfl, rfl, ?_, ?_, ?_⟩
  · cases hsr : should_ricochet acosF nrm projectile.velocity hit_normal s with
    | false =>
      simp only [process_hit, hr, hsr, Bool.and_false, Bool.false_eq_true, false_and,
        iff_false, Bool.true_and]
      split_ifs <;> simp_all
    | true =>
      by_cases hsp : config.min_projectile_speed <
          (calculate_ricochet lenF nrm projectile.velocity hit_normal s).2
      · simp [process_hit, hr, hsr, hsp]
      · simp [process_hit, hr, hsr, hsp]
  · intro hsr hsp
    constructor <;> simp [process_hit, hr, hsr, hsp]
  · intro hsr hsp
    refine ⟨?_, ?_, ?_⟩ <;> simp [process_hit, hr, hsr, hsp]

/-- Witness for C4 at concrete primitives and inputs: ricochet enabled,
`should_ricochet` true (acos primitive returning 1 against threshold 0.3),
new speed 10·(1 − min(100/200, 0.8)) = 5 below the minimum speed 20, so
the hit is a full stop. -/
theorem process_hit_ricochet_behavior_witness :
    (process_hit (fun _ => 1) (fun _ => 10) (fun v => v)
      { use_rk4 := true, max_projectile_lifetime := 10, max_projectile_distance := 2000,
        enable_penetration := true, enable_ricochet := true, min_projectile_speed := 20,
        debug_draw := false }
      { velocity := (1, -1/10, 0), mass := 1/100, drag_coefficient := 3/10,
        reference_area := 1/10000, diameter := 1/100, spin := 0, penetration_power := 100,
        previous_position := (0, 0, 0), age := 0, distance_travelled := 0, owner := none }
      none (0, 1, 0)
      (some { ricochet_angle := 3/10, penetration_loss := 100, thickness := 1/100 })).removed
        = true ∧
    (process_hit (fun _ => 1) (fun _ => 10) (fun v => v)
      { use_rk4 := true, max_projectile_lifetime := 10, max_projectile_distance := 2000,
        enable_penetration := true, enable_ricochet := true, min_projectile_speed := 20,
        debug_draw := false }
      { velocity := (1, -1/10, 0), mass := 1/100, drag_coefficient := 3/10,
        reference_area := 1/10000, diameter := 1/100, spin := 0, penetration_power := 100,
        previous_position := (0, 0, 0), age := 0, distance_travelled := 0, owner := none }
      none (0, 1, 0)
      (some { ricochet_angle := 3/10, penetration_loss := 100, thickness := 1/100 })).penetrated
        = false :=
  have h := process_hit_ricochet_behavior (fun _ => 1) (fun _ => 10) (fun v => v)
    { use_rk4 := true, max_projectile_lifetime := 10, max_projectile_distance := 2000,
      enable_penetration := true, enable_ricochet := true, min_projectile_speed := 20,
      debug_draw := false }
    { velocity := (1, -1/10, 0), mass := 1/100, drag_coefficient := 3/10,
      reference_area := 1/10000, diameter := 1/100, spin := 0, penetration_power := 100,
      previous_position := (0, 0, 0), age := 0, distance_travelled := 0, owner := none }
    none (0, 1, 0)
    { ricochet_angle := 3/10, penetration_loss := 100, thickness := 1/100 } rfl
  have hfull := h.2.2.2.2.2
    (by norm_num [should_ricochet, ricochet_acos_input, dot3, neg3])
    (by norm_num [calculate_ricochet, reflect3, min_def])
  ⟨hfull.1, hfull.2.1⟩

/-- C7 counterexample: the scalar handed to `acos` in the impact-angle
computation is the raw dot product, not the clamped one the spec
describes: at a normalize primitive returning a (floating-point-style)
non-unit vector, the source expression evaluates to `3/2`, outside
`[-1, 1]`, while the spec's clamped expression evaluates to `1`. -/
theorem ricochet_acos_input_unclamped_cex :
    ricochet_acos_input (fun v => v) (3/2, 0, 0) (-1, 0, 0) = 3/2 ∧
    ricochet_acos_input_from_spec (fun v => v) (3/2, 0, 0) (-1, 0, 0) = 1 ∧
    ¬ ((3/2 : ℚ) ≤ 1) := by
  refine ⟨?_, ?_, by norm_num⟩ <;>
    norm_num [ricochet_acos_input, ricochet_acos_input_from_spec, dot3, neg3, min_def, max_def]

/-- C7 amended: no clamp is applied — the value fed to `acos` is exactly
the raw dot product `dot(normalize(velocity), -normal)` — and the impact
angle avoids the `acos` domain error only in so far as the normalize
primitive returns an exactly unit vector: for exactly unit inputs the
argument lies in `[-1, 1]` by Cauchy–Schwarz. -/
theorem ricochet_acos_input_bound (nrm : Vec3 → Vec3) (velocity surface_normal : Vec3)
    (hu : dot3 (nrm velocity) (nrm velocity) = 1)
    (hn : dot3 surface_normal surface_normal = 1) :
    ricochet_acos_input nrm velocity surface_normal =
      dot3 (nrm velocity) (neg3 surface_normal) ∧
    -1 ≤ ricochet_acos_input nrm velocity surface_normal ∧
    ricochet_acos_input nrm velocity surface_normal ≤ 1 := by
  refine ⟨rfl, ?_, ?_⟩ <;>
  · rcases hv : nrm velocity with ⟨a1, a2, a3⟩
    obtain ⟨b1, b2, b3⟩ := surface_normal
    rw [hv] at hu
    simp only [ricochet_acos_input, dot3, neg3, hv] at hu hn ⊢
    nlinarith [sq_nonneg (a1 - b1), sq_nonneg (a2 - b2), sq_nonneg (a3 - b3),
      sq_nonneg (a1 + b1), sq_nonneg (a2 + b2), sq_nonneg (a3 + b3)]

/-- Witness for C7's amended statement at concrete unit vectors. -/
theorem ricochet_acos_input_bound_witness :
    ricochet_acos_input (fun _ => (1, 0, 0)) (0, 0, 0) (0, 1, 0) =
      dot3 ((1 : ℚ), (0 : ℚ), (0 : ℚ)) (neg3 (0, 1, 0)) ∧
    -1 ≤ ricochet_acos_input (fun _ => (1, 0, 0)) (0, 0, 0) (0, 1, 0) ∧
    ricochet_acos_input (fun _ => (1, 0, 0)) (0, 0, 0) (0, 1, 0) ≤ 1 :=
  ricochet_acos_input_bound (fun _ => (1, 0, 0)) (0, 0, 0) (0, 1, 0)
    (by norm_num [dot3]) (by norm_num [dot3])

/-- C5: for positive radius, `calculate_explosion_damage` returns 0 at or
past the radius and `base_damage * (1 - distance/radius) ^ falloff`
inside it; the spec's four reference evaluations hold: 100 at the center,
0 at the edge, 50 at half radius with linear falloff, and strictly below
50 at half radius with quadratic falloff. -/
theorem explosion_damage_formula :
    (∀ b d r f : ℝ, 0 < r →
      (r ≤ d → calculate_explosion_damage b d r f = 0) ∧
      (d < r → calculate_explosion_damage b d r f = b * (1 - d / r) ^ f)) ∧
    calculate_explosion_damage 100 0 10 1 = 100 ∧
    calculate_explosion_damage 100 10 10 1 = 0 ∧
    calculate_explosion_damage 100 5 10 1 = 50 ∧
    calculate_explosion_damage 100 5 10 2 < 50 := by
  have hpow2 : ((1:ℝ) - 5/10) ^ (2:ℝ) = (1/4 : ℝ) := by
    rw [show ((2:ℝ)) = ((2:ℕ):ℝ) by norm_num, Real.rpow_natCast]
    norm_num
  refine ⟨?_, ?_, ?_, ?_, ?_⟩
  · intro b d r f _
    refine ⟨fun h => ?_, fun h => ?_⟩
    · simp only [calculate_explosion_damage, if_pos h]
    · simp only [calculate_explosion_damage, if_neg (not_le.mpr h)]
  · have h : ¬ ((10:ℝ) ≤ 0) := by norm_num
    simp only [calculate_explosion_damage, if_neg h]
    norm_num [Real.one_rpow]
  · simp [calculate_explosion_damage]
  · have h : ¬ ((10:ℝ) ≤ 5) := by norm_num
    simp only [calculate_explosion_damage, if_neg h]
    norm_num [Real.rpow_one]
  · have h : ¬ ((10:ℝ) ≤ 5) := by norm_num
    simp only [calculate_explosion_damage, if_neg h]
    rw [hpow2]
    norm_num

/-- Witness for C5's general clause at a concrete interior point. -/
theorem explosion_damage_formula_witness :
    calculate_explosion_damage 100 5 10 1 = 100 * (1 - 5 / 10) ^ (1:ℝ) :=
  (explosion_damage_formula.1 100 5 10 1 (by norm_num)).2 (by norm_num)

/-- C8 counterexample: at distance 0 the falloff factor is `1 ^ falloff = 1`
for every exponent, so a strictly higher falloff does not give strictly
lower damage at every distance in `[0, radius)`; and for a (fixed) negative
base damage the function is not monotonically non-increasing in
distance. -/
theorem explosion_damage_monotone_cex :
    calculate_explosion_damage 100 0 10 2 = calculate_explosion_damage 100 0 10 1 ∧
    calculate_explosion_damage (-100) 0 10 1 < calculate_explosion_damage (-100) 5 10 1 := by
  have h : ¬ ((10:ℝ) ≤ 0) := by norm_num
  have h5 : ¬ ((10:ℝ) ≤ 5) := by norm_num
  constructor
  · simp only [calculate_explosion_damage, if_neg h]
    norm_num [Real.one_rpow, Real.rpow_one]
  · simp only [calculate_explosion_damage, if_neg h, if_neg h5]
    norm_num [Real.one_rpow, Real.rpow_one]

/-- C8 amended: for nonnegative base damage and falloff, explosion damage
is monotonically non-increasing in distance on `[0, radius]`; and at every
strictly interior distance (`0 < distance < radius`) with positive base
damage, a strictly higher falloff exponent yields strictly lower
damage. -/
theorem explosion_damage_monotone :
    (∀ b r f d1 d2 : ℝ, 0 ≤ b → 0 ≤ f → 0 ≤ d1 → d1 ≤ d2 → d2 ≤ r →
      calculate_explosion_damage b d2 r f ≤ calculate_explosion_damage b d1 r f) ∧
    (∀ b r d f1 f2 : ℝ, 0 < b → 0 < d → d < r → f1 < f2 →
      calculate_explosion_damage b d r f2 < calculate_explosion_damage b d r f1) := by
  constructor
  · intro b r f d1 d2 hb hf hd1 h12 h2r
    by_cases hrd2 : r ≤ d2
    · rw [show calculate_explosion_damage b d2 r f = 0 by
        simp only [calculate_explosion_damage, if_pos hrd2]]
      by_cases hrd1 : r ≤ d1
      · simp [calculate_explosion_damage, hrd1]
      · push_neg at hrd1
        have hr : 0 < r := lt_of_le_of_lt hd1 hrd1
        have hx : 0 ≤ 1 - d1 / r := by
          have := (div_le_one hr).mpr hrd1.le
          linarith
        simp only [calculate_explosion_damage, if_neg (not_le.mpr hrd1)]
        exact mul_nonneg hb (Real.rpow_nonneg hx f)
    · push_neg at hrd2
      have hrd1 : d1 < r := lt_of_le_of_lt h12 hrd2
      have hr : 0 < r := lt_of_le_of_lt hd1 hrd1
      simp only [calculate_explosion_damage, if_neg (not_le.mpr hrd2),
        if_neg (not_le.mpr hrd1)]
      refine mul_le_mul_of_nonneg_left ?_ hb
      refine Real.rpow_le_rpow ?_ ?_ hf
      · have := (div_le_one hr).mpr hrd2.le
        linarith
      · have : d1 / r ≤ d2 / r := by gcongr
        linarith
  · intro b r d f1 f2 hb hd hdr h12
    have hr : 0 < r := hd.trans hdr
    have hx0 : 0 < 1 - d / r := by
      have := (div_lt_one hr).mpr hdr
      linarith
    have hx1 : 1 - d / r < 1 := by
      have := div_pos hd hr
      linarith
    simp only [calculate_explosion_damage, if_neg (not_le.mpr hdr)]
    exact mul_lt_mul_of_pos_left (Real.rpow_lt_rpow_of_exponent_gt hx0 hx1 h12) hb

/-- Witness for C8's amended statement at concrete inputs. -/
theorem explosion_damage_monotone_witness :
    calculate_explosion_damage 100 5 10 1 ≤ calculate_explosion_damage 100 2 10 1 ∧
    calculate_explosion_damage 100 5 10 2 < calculate_explosion_damage 100 5 10 1 :=
  ⟨explosion_damage_monotone.1 100 10 1 2 5 (by norm_num) (by norm_num) (by norm_num)
      (by norm_num) (by norm_num),
   explosion_damage_monotone.2 100 10 5 1 2 (by norm_num) (by norm_num) (by norm_num)
      (by norm_num)⟩

/-- A concrete smoke explosion: radius 10, linear falloff, no source
entity. -/
noncomputable def smoke_event_c9 : ExplosionEvt :=
  { center := (0, 0, 0), radius := 10, falloff := 1,
    explosion_type := ExplosionType.Smoke, source := none }

/-- A concrete EMP explosion with the same geometry. -/
noncomputable def emp_event_c9 : ExplosionEvt :=
  { center := (0, 0, 0), radius := 10, falloff := 1,
    explosion_type := ExplosionType.EMP, source := none }

/-- The displacement and distance of the concrete body at `(5, 0, 0)`. -/
theorem length3R_smoke_body : length3R (sub3R ((5:ℝ), 0, 0) smoke_event_c9.center) = 5 := by
  have : sub3R ((5:ℝ), 0, 0) smoke_event_c9.center = ((5:ℝ), 0, 0) := by
    simp [sub3R, smoke_event_c9]
  rw [this]
  unfold length3R
  rw [show ((5:ℝ) ^ 2 + (0:ℝ) ^ 2 + (0:ℝ) ^ 2) = 5 ^ 2 by norm_num]
  exact Real.sqrt_sq (by norm_num)

/-- The smoke explosion does apply an impulse to the body at `(5, 0, 0)`. -/
theorem smoke_impulse_applied :
    apply_explosion_impulse_to_body smoke_event_c9 0 ((5:ℝ), 0, 0) 1 ≠ none := by
  unfold apply_explosion_impulse_to_body
  rw [if_neg (by norm_num [explosion_base_impulse, smoke_event_c9])]
  rw [if_neg (by simp [smoke_event_c9])]
  rw [if_neg (by rw [length3R_smoke_body]; norm_num [smoke_event_c9])]
  simp

/-- C9 counterexample: a Smoke explosion is not impulse-free — its base
impulse is `0.5`, a body strictly inside the radius receives an impulse,
and the magnitude at distance 5 of radius 10 with unit mass is `1/4 ≠ 0`. -/
theorem smoke_impulse_cex :
    apply_explosion_impulse_to_body smoke_event_c9 0 ((5:ℝ), 0, 0) 1 ≠ none ∧
    explosion_base_impulse ExplosionType.Smoke = 1/2 ∧
    impulse_magnitude smoke_event_c9 (1/2) 5 1 = 1/4 ∧ ((1/4 : ℝ) ≠ 0) := by
  refine ⟨smoke_impulse_applied, by norm_num [explosion_base_impulse], ?_, by norm_num⟩
  unfold impulse_magnitude
  rw [if_pos (by norm_num : (0:ℝ) < 1)]
  norm_num [smoke_event_c9, Real.rpow_one]

/-- C9 amended: an impulse is applied only to bodies strictly inside the
blast radius and distinct from the explosion's source; for positive mass
the magnitude is `base_impulse * (1 - distance/radius)^falloff / mass`;
the per-type base impulse is a fixed constant per `ExplosionType`
(high-explosive 30, incendiary 5, flash 2, smoke 0.5, fragmentation 25,
concussion 50, EMP 0); and an EMP explosion contributes no impulse to any
body. -/
theorem apply_explosion_impulse_characterization :
    (∀ (event : ExplosionEvt) (body : Nat) (body_pos : Vec3R) (mass : ℝ),
      apply_explosion_impulse_to_body event body body_pos mass ≠ none →
      length3R (sub3R body_pos event.center) < event.radius ∧ event.source ≠ some body) ∧
    (∀ (event : ExplosionEvt) (base_impulse distance mass : ℝ), 0 < mass →
      impulse_magnitude event base_impulse distance mass =
        base_impulse * (1 - distance / event.radius) ^ event.falloff / mass) ∧
    (∀ (event : ExplosionEvt) (body : Nat) (body_pos : Vec3R) (mass : ℝ),
      event.explosion_type = ExplosionType.EMP →
      apply_explosion_impulse_to_body event body body_pos mass = none) ∧
    explosion_base_impulse ExplosionType.HighExplosive = 30 ∧
    explosion_base_impulse ExplosionType.Incendiary = 5 ∧
    explosion_base_impulse ExplosionType.Flash = 2 ∧
    explosion_base_impulse ExplosionType.Smoke = 1/2 ∧
    explosion_base_impulse ExplosionType.Fragmentation = 25 ∧
    explosion_base_impulse ExplosionType.Concussion = 50 ∧
    explosion_base_impulse ExplosionType.EMP = 0 := by
  refine ⟨?_, ?_, ?_, rfl, rfl, rfl, rfl, rfl, rfl, rfl⟩
  · intro event body body_pos mass h
    unfold apply_explosion_impulse_to_body at h
    by_cases h1 : explosion_base_impulse event.explosion_type ≤ 0
    · rw [if_pos h1] at h
      exact absurd rfl h
    · rw [if_neg h1] at h
      by_cases h2 : event.source = some body
      · rw [if_pos h2] at h
        exact absurd rfl h
      · rw [if_neg h2] at h
        by_cases h3 : event.radius ≤ length3R (sub3R body_pos event.center) ∨
            length3R (sub3R body_pos event.center) < 1/100
        · rw [if_pos h3] at h
          exact absurd rfl h
        · push_neg at h3
          exact ⟨h3.1, h2⟩
  · intro event base_impulse distance mass hm
    unfold impulse_magnitude
    rw [if_pos hm, mul_one_div]
  · intro event body body_pos mass h
    unfold apply_explosion_impulse_to_body
    rw [if_pos (by rw [h]; norm_num [explosion_base_impulse])]

/-- Witness for C9's amended statement: the only-inside/except-source
consequence at the concrete smoke body, the magnitude formula at unit
mass, and the EMP no-impulse clause at a concrete body. -/
theorem apply_explosion_impulse_characterization_witness :
    (length3R (sub3R ((5:ℝ), 0, 0) smoke_event_c9.center) < smoke_event_c9.radius ∧
      smoke_event_c9.source ≠ some 0) ∧
    impulse_magnitude smoke_event_c9 (1/2) 5 1 =
      1/2 * (1 - 5 / smoke_event_c9.radius) ^ smoke_event_c9.falloff / 1 ∧
    apply_explosion_impulse_to_body emp_event_c9 0 ((5:ℝ), 0, 0) 1 = none :=
  ⟨apply_explosion_impulse_characterization.1 smoke_event_c9 0 ((5:ℝ), 0, 0) 1
      smoke_impulse_applied,
   apply_explosion_impulse_characterization.2.1 smoke_event_c9 (1/2) 5 1 (by norm_num),
   apply_explosion_impulse_characterization.2.2.1 emp_event_c9 0 ((5:ℝ), 0, 0) 1 rfl⟩

end BulletDynamics
